import Mathlib

/-!
Shallow embedding of `src/commit-size-distribution.py` (the commit-statistics
extraction pipeline) and verification of the specification's claims about it.

The source is a Python script.  The parts with logic are:
  * `uncached_git_numstat` — builds the `git log --numstat` command line and
    parses its line-oriented output into three parallel columns
    (`added`, `removed`, `changed`) of per-commit totals;
  * `git_numstat` — a file-based cache around the above;
  * `cachefile_name` — derives the cache file path from a SHA-256 digest over
    repository path, head revision and the `after`/`before` bounds;
  * the `x_range` clipping logic in `main`.

Byte strings are modelled as Lean `String`s, the stream of `splitlines()`
output as a `List String` of lines, Python `int` as `Int`, and fallible
Python operations (`int()` conversion raising `ValueError`, indexing past
the end of a list raising `IndexError`, `list.append` called with two
arguments raising `TypeError`, `pandas.read_csv` raising on malformed
input) as `Option`/`Except` results.
-/

namespace CommitSizeDistribution

/-- One row of the output table (`pd.DataFrame` with columns
`added`, `removed`, `changed`). -/
structure CommitRecord where
  added : Int
  removed : Int
  changed : Int
deriving Repr, DecidableEq

/-- The table built at the end of `uncached_git_numstat`:
`pd.DataFrame({"added": added[1:], "removed": removed[1:], "changed": changed[1:]})`,
three parallel columns. -/
structure CommitTable where
  added : List Int
  removed : List Int
  changed : List Int
deriving Repr, DecidableEq

/-- Number of rows of the table. -/
def CommitTable.numRecords (t : CommitTable) : Nat := t.added.length

/-- The `i`-th record of the table (columns read in parallel, default 0
past the end). -/
def CommitTable.record (t : CommitTable) (i : Nat) : CommitRecord :=
  ⟨t.added.getD i 0, t.removed.getD i 0, t.changed.getD i 0⟩

/-- Splitting a character list on runs of whitespace, accumulating the
current field in reverse; empty pieces are discarded. -/
def splitFields : List Char → List Char → List (List Char)
  | [], acc => if acc.isEmpty then [] else [acc.reverse]
  | ch :: cs, acc =>
    if ch.isWhitespace then
      if acc.isEmpty then splitFields cs [] else acc.reverse :: splitFields cs []
    else splitFields cs (ch :: acc)

/-- Python `bytes.split()` with no argument: split on runs of whitespace,
discarding empty pieces (so leading/trailing whitespace produces nothing). -/
def pySplit (line : String) : List String :=
  (splitFields line.toList []).map String.mk

/-- Value of a list of decimal digit characters; `none` if empty or if any
character is not a digit. -/
def digitsToNat : List Char → Option Nat
  | [] => none
  | cs => cs.foldlM (fun acc ch => if ch.isDigit then some (acc * 10 + (ch.toNat - '0'.toNat)) else none) 0

/-- Python `int(field)` on a whitespace-free field: an optional sign followed
by at least one decimal digit; raises `ValueError` (here: `none`) otherwise. -/
def pyInt (s : String) : Option Int :=
  match s.toList with
  | '+' :: rest => (digitsToNat rest).map Int.ofNat
  | '-' :: rest => (digitsToNat rest).map (fun n => -(n : Int))
  | cs => (digitsToNat cs).map Int.ofNat

/-- Embeds `re.fullmatch(b"[a-f0-9]{40}", line)`: the line is exactly 40 characters,
all lowercase-hex. -/
def isCommitHeader (line : String) : Bool :=
  line.length == 40 && line.toList.all (fun ch => ch.isDigit || ('a' ≤ ch && ch ≤ 'f'))

/-- Loop state of `uncached_git_numstat`: the three accumulating columns and
the running sums `a`, `r`, `c`. -/
structure ParseState where
  added : List Int
  removed : List Int
  changed : List Int
  a : Int
  r : Int
  c : Int
deriving Repr, DecidableEq

/-- Initial loop state: empty columns, `a = r = c = 0`. -/
def initState : ParseState := ⟨[], [], [], 0, 0, 0⟩

/-- One iteration of the parsing loop in `uncached_git_numstat` on a single
line.  A header line appends the running sums to the columns and resets them.
A line splitting into no fields is skipped, as is a line whose first field is
the binary marker `-`.  Otherwise the first two fields are converted with
`int()` and added to the running sums (`c = a + r` recomputed); a missing
second field (`IndexError`) or a field `int()` rejects (`ValueError`) aborts
the parse (`none`). -/
def stepLine (st : ParseState) (line : String) : Option ParseState :=
  if isCommitHeader line then
    some { added := st.added ++ [st.a], removed := st.removed ++ [st.r],
           changed := st.changed ++ [st.c], a := 0, r := 0, c := 0 }
  else
    match pySplit line with
    | [] => some st
    | f0 :: rest =>
      if f0 = "-" then
        some st
      else do
        let av ← pyInt f0
        let f1 ← rest.head?
        let rv ← pyInt f1
        let a := st.a + av
        let r := st.r + rv
        some { st with a := a, r := r, c := a + r }

/-- The parsing part of `uncached_git_numstat`: fold the loop over the lines
of the subprocess output, then build the table from the columns with the
first element of each sliced off (`added[1:]` etc.).  `none` when the loop
raises. -/
def uncached_git_numstat (lines : List String) : Option CommitTable :=
  (lines.foldlM stepLine initState).map fun st =>
    ⟨st.added.drop 1, st.removed.drop 1, st.changed.drop 1⟩

/-- Number of commit-identifier lines in a stream. -/
def countHeaders (lines : List String) : Nat :=
  (lines.filter (fun l => isCommitHeader l)).length

/-! ## Command construction (`uncached_git_numstat`, lines 45–59)

Python's `list.append` takes exactly one argument; the source calls
`cmd.append("--after", after)` and `cmd.append("--before", before)` with two,
which raises `TypeError` before the subprocess ever runs. -/

/-- Python truthiness of an optional string: `None` and the empty string are
falsy (`if after:`). -/
def truthyStr : Option String → Bool
  | none => false
  | some s => s ≠ ""

/-- Models `list.append` called with two arguments, as written in the source:
raises `TypeError` (Python's `list.append` is unary). -/
def pyAppend2 (_cmd : List String) (_x _y : String) : Except String (List String) :=
  .error "TypeError: append() takes exactly one argument (2 given)"

/-- Command-line construction of `uncached_git_numstat`: the base
`git log --no-merges --format=%H --numstat` invocation, then
`cmd.append("--after", after)` when `after` is truthy and
`cmd.append("--before", before)` when `before` is truthy. -/
def buildNumstatCmd (repository : String) (after before : Option String) :
    Except String (List String) := do
  let cmd := ["git", "-C", repository, "log", "--no-merges", "--format=%H", "--numstat"]
  let cmd ← if truthyStr after then pyAppend2 cmd "--after" (after.getD "") else pure cmd
  let cmd ← if truthyStr before then pyAppend2 cmd "--before" (before.getD "") else pure cmd
  pure cmd

/-! ## Cache key derivation (`cachefile_name`, lines 14–29)

The digest input is the unseparated concatenation of the repository path,
the head revision bytes, `str(after)` and `str(before)`.  The digest
function itself (SHA-256) is kept as a parameter: every statement below
depends only on equality of digest inputs, so it holds for any digest
function, in particular for SHA-256. -/

/-- Python `str()` of an optional string argument: `None` prints as
`"None"`. -/
def pyStr : Option String → String
  | none => "None"
  | some s => s

/-- The byte sequence fed to the SHA-256 digest in `cachefile_name`:
`repository`, the head-revision output, `str(after)`, `str(before)`,
concatenated with no separator. -/
def digestInput (repository headRev : String) (after before : Option String) : String :=
  repository ++ headRev ++ pyStr after ++ pyStr before

/-- The cache file path: `<tmpdir>/commit-size-distribution/<repo basename>/
<hexdigest>.csv`.  `sha256hex` abstracts `hashlib.sha256(...).hexdigest()`
and `repoBase` abstracts `os.path.basename(os.path.relpath(repository))`
(a pure function of the repository path and working directory, identical
across the two invocations the claims compare). -/
def cachefile_name (sha256hex : String → String) (tmpdir repoBase : String)
    (repository headRev : String) (after before : Option String) : String :=
  tmpdir ++ "/commit-size-distribution/" ++ repoBase ++ "/"
    ++ sha256hex (digestInput repository headRev after before) ++ ".csv"

/-! ## Cache layer (`git_numstat`, lines 32–41)

The filesystem is modelled as an association list from paths to persisted
cache contents; `some t` is a well-formed serialized table (the on-disk CSV
encoding is out of scope, only the contract is modelled: deserialization
recovers the table), `none` is an existing but unreadable or malformed
entry. -/

/-- Persisted cache content: a well-formed table, or garbage. -/
inductive CacheContent where
  | table (t : CommitTable)
  | corrupt
deriving Repr, DecidableEq

/-- Filesystem model: path ↦ persisted content, first binding wins. -/
def FS := List (String × CacheContent)

/-- Embeds `os.path.exists` plus lookup of the persisted content at a path. -/
def fsRead (fs : FS) (path : String) : Option CacheContent :=
  (fs.find? (fun e => e.1 == path)).map (fun e => e.2)

/-- Writing a table at a path (shadowing any previous binding). -/
def fsWrite (fs : FS) (path : String) (t : CommitTable) : FS :=
  (path, CacheContent.table t) :: fs

/-- Embeds `pd.read_csv` on persisted content: returns the table when well-formed,
raises (`Except.error`) when the entry is unreadable or malformed. -/
def read_csv : CacheContent → Except String CommitTable
  | .table t => .ok t
  | .corrupt => .error "ParserError: malformed cache entry"

/-- Embeds the caching logic of `git_numstat` around a pure `compute` for the uncached
result: if the cache file exists, read it (propagating any read error);
otherwise compute, persist, return.  The result carries the returned table,
the filesystem after the call, and the number of times `compute` ran. -/
def git_numstat (fs : FS) (cachefile : String) (compute : Unit → CommitTable) :
    Except String (CommitTable × FS × Nat) :=
  match fsRead fs cachefile with
  | some content => (read_csv content).map (fun t => (t, fs, 0))
  | none =>
    let res := compute ()
    .ok (res, fsWrite fs cachefile res, 1)

/-! ## Histogram range clipping (`main`, lines 146–152)

`x_range` stays `None` unless `args.max_size` is truthy (a *nonzero*
integer); when set it is `(0, min(args.max_size, df.changed.max()))`. -/

/-- Python truthiness of the optional integer `args.max_size`:
`None` and `0` are falsy. -/
def truthyInt : Option Int → Bool
  | none => false
  | some n => n ≠ 0

/-- The `x_range` computation in `main`: `None` when `args.max_size` is
falsy, otherwise `(0, min(args.max_size, changedMax))` where `changedMax`
is `df.changed.max()`. -/
def xRange (max_size : Option Int) (changedMax : Int) : Option (Int × Int) :=
  if truthyInt max_size then some (0, min (max_size.getD 0) changedMax) else none

/-! ## Spec-side instrumentation used to state the claims -/

/-- The hypothesis of the record invariant: on every numstat line whose count
fields are successfully converted by `int()`, both converted values are
non-negative (header lines, blank lines, binary-marked lines, and lines the
parse would reject anyway are unconstrained). -/
def lineNonnegCounts (line : String) : Bool :=
  isCommitHeader line ||
  (match pySplit line with
   | [] => true
   | f0 :: rest =>
     f0 == "-" ||
     (match pyInt f0, rest.head?.bind pyInt with
      | some v, some w => decide (0 ≤ v) && decide (0 ≤ w)
      | _, _ => true))

/-- Invariant maintained by the parsing loop: the running sums satisfy
`c = a + r` with `a, r` non-negative, the three columns have equal length,
and column-wise `changed = added + removed` with non-negative entries. -/
def StateInv (st : ParseState) : Prop :=
  st.c = st.a + st.r ∧ 0 ≤ st.a ∧ 0 ≤ st.r ∧
  st.removed.length = st.added.length ∧
  st.changed.length = st.added.length ∧
  ∀ i : Nat, st.changed.getD i 0 = st.added.getD i 0 + st.removed.getD i 0
    ∧ 0 ≤ st.added.getD i 0 ∧ 0 ≤ st.removed.getD i 0

end CommitSizeDistribution

namespace CommitSizeDistribution

/-! ## Helper lemmas -/

lemma getD_append_one (l : List Int) (x : Int) (i : Nat) :
    (l ++ [x]).getD i 0 =
      if i < l.length then l.getD i 0 else if i = l.length then x else 0 := by
  rcases Nat.lt_trichotomy i l.length with h | h | h
  · rw [List.getD_append _ _ _ _ h, if_pos h]
  · subst h
    rw [List.getD_append_right _ _ _ _ (Nat.le_refl _), if_neg (lt_irrefl _), if_pos rfl,
      Nat.sub_self]
    rfl
  · rw [List.getD_append_right _ _ _ _ (Nat.le_of_lt h), if_neg (by omega), if_neg (by omega)]
    exact List.getD_eq_default _ _ (by simp; omega)

lemma getD_drop_one (l : List Int) (i : Nat) : (l.drop 1).getD i 0 = l.getD (1 + i) 0 := by
  cases l with
  | nil => simp
  | cons x xs =>
    rw [Nat.add_comm 1 i]
    simp [List.getD_cons_succ]

lemma StateInv_initState : StateInv initState := by
  refine ⟨rfl, le_refl 0, le_refl 0, rfl, rfl, fun i => ?_⟩
  refine ⟨?_, ?_, ?_⟩ <;> simp [initState]

lemma stepLine_preserves_inv {st st' : ParseState} {line : String}
    (hq : lineNonnegCounts line = true)
    (hs : stepLine st line = some st') (hi : StateInv st) : StateInv st' := by
  obtain ⟨hc, ha, hr, hlr, hlc, hcols⟩ := hi
  by_cases hh : isCommitHeader line
  · rw [stepLine, if_pos hh] at hs
    cases hs
    refine ⟨by simp, le_refl 0, le_refl 0, by simp [hlr], by simp [hlc], fun i => ?_⟩
    simp only [getD_append_one, hlr, hlc]
    by_cases hlt : i < st.added.length
    · simp only [if_pos hlt]
      exact hcols i
    · by_cases heq : i = st.added.length
      · simp only [if_neg hlt, if_pos heq]
        exact ⟨hc, ha, hr⟩
      · simp only [if_neg hlt, if_neg heq]
        norm_num
  · rw [stepLine, if_neg hh] at hs
    split at hs
    next hps =>
      cases hs
      exact ⟨hc, ha, hr, hlr, hlc, hcols⟩
    next f0 rest hps =>
      by_cases hf0 : f0 = "-"
      · rw [if_pos hf0] at hs
        cases hs
        exact ⟨hc, ha, hr, hlr, hlc, hcols⟩
      · rw [if_neg hf0] at hs
        simp only [Option.bind_eq_bind] at hs
        rcases hav : pyInt f0 with _ | av <;> rw [hav] at hs
        · simp at hs
        simp only [Option.some_bind] at hs
        rcases hf1 : rest.head? with _ | f1 <;> rw [hf1] at hs
        · simp at hs
        simp only [Option.some_bind] at hs
        rcases hrv : pyInt f1 with _ | rv <;> rw [hrv] at hs
        · simp at hs
        simp only [Option.some_bind, Option.some.injEq] at hs
        have hnn : 0 ≤ av ∧ 0 ≤ rv := by
          rw [lineNonnegCounts, hps] at hq
          simp [hh, hf0, hav, hf1, hrv] at hq
          exact hq
        obtain ⟨hav2, hrv2⟩ := hnn
        cases hs
        refine ⟨rfl, ?_, ?_, hlr, hlc, hcols⟩
        · show (0:Int) ≤ st.a + av
          omega
        · show (0:Int) ≤ st.r + rv
          omega

lemma foldlM_stepLine_inv :
    ∀ (lines : List String) (s0 s1 : ParseState),
      (∀ l ∈ lines, lineNonnegCounts l = true) →
      List.foldlM stepLine s0 lines = some s1 → StateInv s0 → StateInv s1 := by
  intro lines
  induction lines with
  | nil =>
    intro s0 s1 _ hf hi
    simp only [List.foldlM_nil, pure, Option.some.injEq] at hf
    exact hf ▸ hi
  | cons a l ih =>
    intro s0 s1 hq hf hi
    rw [List.foldlM_cons] at hf
    rcases hsa : stepLine s0 a with _ | s' <;> rw [hsa] at hf
    · simp at hf
    · simp only [Option.bind_eq_bind, Option.some_bind] at hf
      exact ih s' s1 (fun x hx => hq x (List.mem_cons_of_mem _ hx)) hf
        (stepLine_preserves_inv (hq a (List.mem_cons_self a l)) hsa hi)

lemma pyInt_dash : pyInt "-" = none := rfl

lemma foldlM_stepLine_failing_line (line : String)
    (hl : ∀ st : ParseState, stepLine st line = none) :
    ∀ (pre suf : List String) (s0 : ParseState),
      List.foldlM stepLine s0 (pre ++ line :: suf) = none := by
  intro pre
  induction pre with
  | nil =>
    intro suf s0
    rw [List.nil_append, List.foldlM_cons, hl s0]
    rfl
  | cons p ps ih =>
    intro suf s0
    rw [List.cons_append, List.foldlM_cons]
    rcases hsp : stepLine s0 p with _ | s'
    · rfl
    · simp only [Option.bind_eq_bind, Option.some_bind]
      exact ih suf s'

/-- Sample full commit identifiers used in the concrete test streams. -/
def sampleHeaderA : String := "aaaaaaaaaaaaaaaaaaaaaaaaaaaaaaaaaaaaaaaa"

/-- A second, distinct sample commit identifier. -/
def sampleHeaderB : String := "0123456789abcdef0123456789abcdef01234567"

/-! ## Claims -/

/-- Claim C1: the claim says a stream with N commit-identifier lines yields
exactly N records, with the sums accumulated after the last identifier line
emitted as the final record.  The code violates this: a record is emitted
only when the *next* header is seen and the first record is sliced off, so
the final block's sums are dropped and N headers yield N − 1 records.  At a
one-commit stream (header, blank, one numstat line `10 2 fileA`) the parse
returns an empty table instead of one record `(10, 2, 12)`; at a two-commit
stream the second commit's totals `(5, 0, 5)` are missing. -/
theorem c1_trailing_record_dropped :
    countHeaders [sampleHeaderA, "", "10\t2\tfileA"] = 1 ∧
    (uncached_git_numstat [sampleHeaderA, "", "10\t2\tfileA"]).map CommitTable.numRecords
      = some 0 ∧
    countHeaders [sampleHeaderA, "", "10\t2\tfileA", sampleHeaderB, "", "5\t0\tfileB"] = 2 ∧
    uncached_git_numstat [sampleHeaderA, "", "10\t2\tfileA", sampleHeaderB, "", "5\t0\tfileB"]
      = some ⟨[10], [2], [12]⟩ := by
  refine ⟨by decide, by decide, by decide, by decide⟩

/-- Claim C2: every record of a table produced by the parsing step (from
numstat lines whose successfully converted count fields are non-negative)
satisfies `changed = added + removed` with all three fields non-negative. -/
theorem c2_record_invariant (lines : List String) (t : CommitTable)
    (hp : uncached_git_numstat lines = some t)
    (hq : ∀ l ∈ lines, lineNonnegCounts l = true) :
    ∀ i : Nat, (t.record i).changed = (t.record i).added + (t.record i).removed ∧
      0 ≤ (t.record i).added ∧ 0 ≤ (t.record i).removed ∧ 0 ≤ (t.record i).changed := by
  rcases hst : List.foldlM stepLine initState lines with _ | st <;>
    rw [uncached_git_numstat, hst] at hp
  · exact Option.noConfusion hp
  · simp only [Option.map_some', Option.some.injEq] at hp
    obtain ⟨hc, ha, hr, hlr, hlc, hcols⟩ :=
      foldlM_stepLine_inv lines initState st hq hst StateInv_initState
    intro i
    obtain ⟨h1, h2, h3⟩ := hcols (1 + i)
    subst hp
    simp only [CommitTable.record, getD_drop_one]
    exact ⟨h1, h2, h3, by rw [h1]; exact add_nonneg h2 h3⟩

/-- Witness for C2: on the two-commit stream `header, blank, "10 2 fileA",
header` the parse yields the table `([10], [2], [12])`, and its record 0
satisfies the invariant. -/
theorem c2_record_invariant_witness :
    ((⟨[10], [2], [12]⟩ : CommitTable).record 0).changed
        = ((⟨[10], [2], [12]⟩ : CommitTable).record 0).added
          + ((⟨[10], [2], [12]⟩ : CommitTable).record 0).removed ∧
      0 ≤ ((⟨[10], [2], [12]⟩ : CommitTable).record 0).added := by
  have h := c2_record_invariant [sampleHeaderA, "", "10\t2\tfileA", sampleHeaderB]
    ⟨[10], [2], [12]⟩ (by decide) (by decide) 0
  exact ⟨h.1, h.2.1⟩

/-- Claim C3: a numstat line whose first whitespace-delimited field is the
binary marker `-` leaves the loop state unchanged, and a commit block
containing only a binary-marked file yields the all-zero record. -/
theorem c3_binary_marker_skipped :
    (∀ (st : ParseState) (line : String), isCommitHeader line = false →
        (pySplit line).head? = some "-" → stepLine st line = some st) ∧
    uncached_git_numstat [sampleHeaderA, "", "-\t-\timage.png", sampleHeaderB]
      = some ⟨[0], [0], [0]⟩ := by
  constructor
  · intro st line hh hsp
    rcases hps : pySplit line with _ | ⟨f0, rest⟩ <;> rw [hps] at hsp
    · simp at hsp
    · simp only [List.head?_cons, Option.some.injEq] at hsp
      subst hsp
      rw [stepLine, if_neg (by simp [hh]), hps]
      rfl
  · decide

/-- Witness for C3: a binary-marker line applied to a mid-block state with
nonzero running sums returns that state unchanged. -/
theorem c3_binary_marker_skipped_witness :
    stepLine ⟨[], [], [], 5, 6, 11⟩ "-\t-\timage.png" = some ⟨[], [], [], 5, 6, 11⟩ :=
  c3_binary_marker_skipped.1 _ _ (by decide) (by decide)

/-- Claim C4, counterexample: the claim says every numstat line with an
unexpected field count is tolerated and skipped and parsing never aborts.
The code aborts: on the single-field line `"5"`, `int(stat[0])` succeeds and
`stat[1]` raises `IndexError`, so the whole parse fails. -/
theorem c4_counterexample : uncached_git_numstat ["5"] = none := by decide

/-- Claim C4, amended: only lines splitting into zero fields (blank or
whitespace-only) are tolerated and skipped; a one-field line that is not the
binary marker aborts the whole parse, and a line with more than three fields
is not skipped but processed using its first two fields. -/
theorem c4_only_blank_lines_tolerated :
    (∀ (st : ParseState) (line : String), isCommitHeader line = false →
        pySplit line = [] → stepLine st line = some st) ∧
    (∀ st : ParseState, stepLine st "5" = none) ∧
    stepLine initState "3\t4\tfile\textra" = some ⟨[], [], [], 3, 4, 7⟩ := by
  refine ⟨?_, ?_, by decide⟩
  · intro st line hh hps
    rw [stepLine, if_neg (by simp [hh]), hps]
  · intro st
    rfl

/-- Witness for C4's amended statement: the whitespace-only line `" \t "`
is skipped, leaving the initial state unchanged. -/
theorem c4_only_blank_lines_tolerated_witness :
    stepLine initState " \t " = some initState :=
  c4_only_blank_lines_tolerated.1 _ _ (by decide) (by decide)

end CommitSizeDistribution

namespace CommitSizeDistribution

/-- Claim C5: the claim says a present `after`/`before` bound is forwarded to
the `git log` command line and the query then runs.  The code violates this:
`cmd.append("--after", after)` calls the unary `list.append` with two
arguments, raising `TypeError` before the subprocess runs, whenever either
bound is truthy; only with both bounds absent is the base command built. -/
theorem c5_time_bound_append_raises :
    buildNumstatCmd "/repo" (some "2020-01-01") none
      = .error "TypeError: append() takes exactly one argument (2 given)" ∧
    buildNumstatCmd "/repo" none (some "2021-06-30")
      = .error "TypeError: append() takes exactly one argument (2 given)" ∧
    buildNumstatCmd "/repo" none none
      = .ok ["git", "-C", "/repo", "log", "--no-merges", "--format=%H", "--numstat"] :=
  ⟨rfl, rfl, rfl⟩

/-- Claim C6: the cache contract of `git_numstat`: a persisted well-formed entry is
returned without invoking the computation; a missing entry triggers exactly
one computation whose result is persisted and returned; and starting from a
missing entry, two successive calls return the same table while computing
only once. -/
theorem c6_get_or_compute (fs : FS) (key : String) (compute : Unit → CommitTable) :
    (∀ t, fsRead fs key = some (.table t) →
        git_numstat fs key compute = .ok (t, fs, 0)) ∧
    (fsRead fs key = none →
        git_numstat fs key compute = .ok (compute (), fsWrite fs key (compute ()), 1)) ∧
    (fsRead fs key = none →
        ∃ t fs2, git_numstat fs key compute = .ok (t, fs2, 1) ∧
          git_numstat fs2 key compute = .ok (t, fs2, 0)) := by
  refine ⟨?_, ?_, ?_⟩
  · intro t ht
    simp [git_numstat, ht, read_csv, Except.map]
  · intro h
    simp [git_numstat, h]
  · intro h
    refine ⟨compute (), fsWrite fs key (compute ()), by simp [git_numstat, h], ?_⟩
    have hread : fsRead (fsWrite fs key (compute ())) key = some (.table (compute ())) := by
      simp [fsRead, fsWrite, List.find?]
    simp [git_numstat, hread, read_csv, Except.map]

/-- Witness for C6: with an empty filesystem, one call computes the table,
persists it, and returns it. -/
theorem c6_get_or_compute_witness :
    git_numstat [] "key" (fun _ => ⟨[3], [1], [4]⟩)
      = .ok (⟨[3], [1], [4]⟩, [("key", CacheContent.table ⟨[3], [1], [4]⟩)], 1) :=
  (c6_get_or_compute [] "key" (fun _ => ⟨[3], [1], [4]⟩)).2.1 rfl

/-- Claim C7, counterexample: the claim says an unreadable or malformed
persisted entry is treated as a miss (recompute and overwrite, no error to
the caller).  The code violates this: `pd.read_csv` is called unguarded
whenever the cache file exists, so a corrupt entry raises to the caller
instead of being recomputed. -/
theorem c7_counterexample :
    git_numstat [("key", CacheContent.corrupt)] "key" (fun _ => ⟨[3], [1], [4]⟩)
      = .error "ParserError: malformed cache entry" := rfl

/-- Claim C7, amended: when the persisted entry under the derived key exists
but is unreadable or malformed, the cache layer does *not* treat it as a
miss: the deserialization error propagates to the caller and nothing is
recomputed or overwritten. -/
theorem c7_corrupt_entry_error_propagates (fs : FS) (key : String)
    (compute : Unit → CommitTable) (h : fsRead fs key = some CacheContent.corrupt) :
    git_numstat fs key compute = .error "ParserError: malformed cache entry" := by
  simp [git_numstat, h, read_csv, Except.map]

/-- Witness for C7's amended statement: a corrupt entry under a different
concrete key propagates the read error. -/
theorem c7_corrupt_entry_error_propagates_witness :
    git_numstat [("other", CacheContent.corrupt)] "other" (fun _ => ⟨[], [], []⟩)
      = .error "ParserError: malformed cache entry" :=
  c7_corrupt_entry_error_propagates _ _ _ rfl

/-- Claim C8, counterexample: the claim says differing `(after, before)`
pairs always derive different cache keys.  The code violates this: the
digest input concatenates `str(after)` and `str(before)` with no separator,
so the distinct pairs `("2020", "-01")` and `("2020-", "01")` feed the
identical byte sequence to SHA-256 and derive the identical cache file path
(shown here with the digest function instantiated; the digest inputs are
equal as strings, so equality holds for any digest function). -/
theorem c8_counterexample :
    ((some "2020", some "-01") ≠ ((some "2020-" : Option String), (some "01" : Option String))) ∧
    digestInput "/repo" "deadbeef" (some "2020") (some "-01")
      = digestInput "/repo" "deadbeef" (some "2020-") (some "01") ∧
    cachefile_name (fun s => s) "/tmp" "repo" "/repo" "deadbeef" (some "2020") (some "-01")
      = cachefile_name (fun s => s) "/tmp" "repo" "/repo" "deadbeef" (some "2020-") (some "01") := by
  refine ⟨by decide, by decide, by decide⟩

/-- Claim C8, amended: with repository and head fixed, two `(after, before)`
pairs derive the same digest input exactly when the unseparated
concatenations `str(after) ++ str(before)` coincide; whenever they coincide
the derived cache file paths are identical for every digest function, so one
range's cached table is reused for the other range. -/
theorem c8_digest_collision (repository headRev : String) (a1 b1 a2 b2 : Option String) :
    (digestInput repository headRev a1 b1 = digestInput repository headRev a2 b2
      ↔ pyStr a1 ++ pyStr b1 = pyStr a2 ++ pyStr b2) ∧
    ∀ (sha256hex : String → String) (tmpdir repoBase : String),
      pyStr a1 ++ pyStr b1 = pyStr a2 ++ pyStr b2 →
        cachefile_name sha256hex tmpdir repoBase repository headRev a1 b1
          = cachefile_name sha256hex tmpdir repoBase repository headRev a2 b2 := by
  have hdi : digestInput repository headRev a1 b1 = digestInput repository headRev a2 b2
      ↔ pyStr a1 ++ pyStr b1 = pyStr a2 ++ pyStr b2 := by
    constructor
    · intro h
      have h1 : (repository ++ headRev) ++ (pyStr a1 ++ pyStr b1)
          = (repository ++ headRev) ++ (pyStr a2 ++ pyStr b2) := by
        simpa [digestInput, String.append_assoc] using h
      have h2 := congrArg String.data h1
      simp only [String.data_append] at h2
      have h3 := List.append_cancel_left h2
      exact String.toList_inj.mp (by simpa [String.toList, String.data_append] using h3)
    · intro h
      simp [digestInput, String.append_assoc, h]
  refine ⟨hdi, fun sha256hex tmpdir repoBase h => ?_⟩
  rw [cachefile_name, cachefile_name, hdi.mpr h]

/-- Witness for C8's amended statement: the colliding pair of ranges shares
one concrete cache file path. -/
theorem c8_digest_collision_witness :
    cachefile_name (fun s => s) "/tmp" "repo" "/repo" "HEAD" (some "2020") (some "-01")
      = cachefile_name (fun s => s) "/tmp" "repo" "/repo" "HEAD" (some "2020-") (some "01") :=
  (c8_digest_collision "/repo" "HEAD" (some "2020") (some "-01") (some "2020-")
    (some "01")).2 (fun s => s) "/tmp" "repo" (by decide)

/-- Claim C9, counterexample: the claim says a provided `max-size` bound
always makes the histogram upper limit `min(max_size, max(changed))`.  The
code tests truthiness, not presence: a provided `--max-size 0` is falsy, so
no range is set at all, instead of the claimed upper limit
`min(0, changed_max) = 0`. -/
theorem c9_counterexample :
    xRange (some 0) 5 = none ∧ xRange (some 0) 5 ≠ some (0, min 0 5) := by
  refine ⟨rfl, by decide⟩

/-- Claim C9, amended: when `max-size` is provided and nonzero, the histogram
range upper limit is `min(max_size, max(changed))` — in particular never
past the data's true maximum; a provided `max-size` of 0 is treated exactly
like an absent bound (no clipping). -/
theorem c9_clip_range (m changedMax : Int) :
    (m ≠ 0 → xRange (some m) changedMax = some (0, min m changedMax) ∧
      (min m changedMax ≤ changedMax)) ∧
    xRange (some 0) changedMax = none ∧
    xRange none changedMax = none := by
  refine ⟨fun hm => ⟨?_, min_le_right _ _⟩, ?_, rfl⟩
  · simp [xRange, truthyInt, hm]
  · simp [xRange, truthyInt]

/-- Witness for C9's amended statement: bound 7 with data maximum 5 clips
to `min 7 5 = 5`. -/
theorem c9_clip_range_witness :
    xRange (some 7) 5 = some (0, min 7 5) ∧ min (7:Int) 5 ≤ 5 :=
  (c9_clip_range 7 5).1 (by decide)

/-- Claim C10: a numstat line whose first field converts as an integer but
whose second field is the binary marker `-` is neither skipped nor recorded
as zero: `int(b"-")` raises `ValueError`, the line always fails, and the
parse of any stream containing it fails instead of completing. -/
theorem c10_binary_marker_second_field_aborts (st : ParseState) (line f0 : String)
    (rest : List String) (v : Int)
    (hh : isCommitHeader line = false)
    (hsplit : pySplit line = f0 :: "-" :: rest)
    (hv : pyInt f0 = some v) :
    stepLine st line = none ∧
    ∀ pre suf : List String, uncached_git_numstat (pre ++ line :: suf) = none := by
  have hf0 : f0 ≠ "-" := by
    intro h
    rw [h, pyInt_dash] at hv
    exact Option.noConfusion hv
  have hstep : ∀ s : ParseState, stepLine s line = none := by
    intro s
    rw [stepLine, if_neg (by simp [hh]), hsplit]
    simp [hf0, hv, pyInt_dash]
  refine ⟨hstep st, fun pre suf => ?_⟩
  rw [uncached_git_numstat, foldlM_stepLine_failing_line line hstep pre suf initState]
  rfl

/-- Witness for C10: the stream consisting of the single line
`"5\t-\tfile.png"` fails to parse. -/
theorem c10_binary_marker_second_field_aborts_witness :
    uncached_git_numstat ["5\t-\tfile.png"] = none := by
  have h := c10_binary_marker_second_field_aborts initState "5\t-\tfile.png" "5"
    ["file.png"] 5 (by decide) (by decide) (by decide)
  exact h.2 [] []

end CommitSizeDistribution
